import Mathlib

/-!
Shallow embedding of the duowatch real-time session relay
(src/server/routes.ts WebSocket handler and src/shared/schema.ts
WebSocket message schemas).

The relay keeps `sessionConnections : {[sessionId: number]: Connection[]}`,
a mutable map from session id to the list of registered connections
(`{userId, socket}`). Each WebSocket connection has two handler-local
mutable variables `userId` and `sessionId` (both `number | undefined`).
An inbound frame is `JSON.parse`d, validated by the zod discriminated
union `wsMessageSchema`, dispatched by `type`, and finally the
lazy-registration block runs. The `close` handler removes the connection
and possibly notifies survivors.

Modelling choices:
- JavaScript numbers are modelled as `Int` (no claim depends on
  fractional or NaN values; zod's `z.number()` rejects NaN).
- A socket is identified by an `Int` handle; `readyState === OPEN` is an
  oracle `isOpen : Int → Bool` supplied to the handler.
- `JSON.parse` failure is modelled by the inbound frame being `none`
  (`Option JValue`); a parsed JSON document is a `JValue`.
- `storage.createMessage` is the external Persistence Collaborator; its
  outcome is a boolean `persistOk` (false = the awaited promise rejects,
  which lands in the handler's catch block).
- Handler effects are a list of `Output.send` actions, in the order the
  code performs them.
-/

/-- A parsed JSON document, as produced by `JSON.parse`. -/
inductive JValue where
  | jnull : JValue
  | jbool : Bool → JValue
  | jnum : Int → JValue
  | jstr : String → JValue
  | jarr : List JValue → JValue
  | jobj : List (String × JValue) → JValue

/-- Field lookup on a parsed JSON object (`obj[key]`). -/
def getField (fields : List (String × JValue)) (k : String) : Option JValue :=
  (fields.find? (fun p => p.1 == k)).map (fun p => p.2)

/-- A required `z.number()` field: present and a number, else validation fails. -/
def reqNum (fields : List (String × JValue)) (k : String) : Option Int :=
  match getField fields k with
  | some (JValue.jnum n) => some n
  | _ => none

/-- A required `z.string()` field: present and a string, else validation fails. -/
def reqStr (fields : List (String × JValue)) (k : String) : Option String :=
  match getField fields k with
  | some (JValue.jstr s) => some s
  | _ => none

/-- An optional `z.number().optional()` field: absent is fine, present must be a number. -/
def optNum (fields : List (String × JValue)) (k : String) : Option (Option Int) :=
  match getField fields k with
  | none => some none
  | some (JValue.jnum n) => some (some n)
  | some _ => none

/-- The `action` enum of `videoSyncMessageSchema`: `z.enum(["play","pause","seek"])`. -/
inductive SyncAction where
  | play : SyncAction
  | pause : SyncAction
  | seek : SyncAction
deriving DecidableEq, Repr

/-- Parse the `action` string against the enum. -/
def parseAction (s : String) : Option SyncAction :=
  if s = "play" then some SyncAction.play
  else if s = "pause" then some SyncAction.pause
  else if s = "seek" then some SyncAction.seek
  else none

/-- A validated WebSocket message: the closed union `wsMessageSchema`
(src/shared/schema.ts lines 98-128), after zod stripping of unknown keys. -/
inductive WsMessage where
  | videoSync (sessionId : Int) (action : SyncAction)
      (timestamp currentTime : Option Int) : WsMessage
  | chat (sessionId userId : Int) (username message : String)
      (timestamp : Int) : WsMessage
  | sessionUpdate (sessionId : Int)
      (participants : List (Int × String)) : WsMessage
deriving DecidableEq, Repr

/-- Parse one element of `sessionUpdate.participants`. -/
def parseParticipant : JValue → Option (Int × String)
  | JValue.jobj fs =>
    match reqNum fs "userId", reqStr fs "username" with
    | some u, some n => some (u, n)
    | _, _ => none
  | _ => none

/-- Parse the `participants` array elementwise; any bad element fails the whole frame. -/
def parseParticipants : List JValue → Option (List (Int × String))
  | [] => some []
  | x :: xs =>
    match parseParticipant x, parseParticipants xs with
    | some p, some ps => some (p :: ps)
    | _, _ => none

/-- `wsMessageSchema.parse`: discriminate on `type`, then validate the matched
variant's fields; `none` models a thrown `ZodError` (unknown or missing
discriminator, or schema mismatch). No partial acceptance. -/
def parseWs : JValue → Option WsMessage
  | JValue.jobj fields =>
    match getField fields "type" with
    | some (JValue.jstr "videoSync") =>
      (match reqNum fields "sessionId", (reqStr fields "action").bind parseAction,
             optNum fields "timestamp", optNum fields "currentTime" with
       | some sid, some act, some ts, some ct =>
         some (WsMessage.videoSync sid act ts ct)
       | _, _, _, _ => none)
    | some (JValue.jstr "chat") =>
      (match reqNum fields "sessionId", reqNum fields "userId",
             reqStr fields "username", reqStr fields "message",
             reqNum fields "timestamp" with
       | some sid, some uid, some un, some m, some ts =>
         some (WsMessage.chat sid uid un m ts)
       | _, _, _, _, _ => none)
    | some (JValue.jstr "sessionUpdate") =>
      (match reqNum fields "sessionId",
             (match getField fields "participants" with
              | some (JValue.jarr xs) => parseParticipants xs
              | _ => none) with
       | some sid, some ps => some (WsMessage.sessionUpdate sid ps)
       | _, _ => none)
    | _ => none
  | _ => none

/-- One registry entry: `{userId, socket}` (routes.ts `Connection`). -/
structure Conn where
  userId : Int
  sock : Int
deriving DecidableEq, Repr

/-- The `sessionConnections` object: an association of session id to
connection list.  A key that is absent is distinct from a key mapped to `[]`. -/
abbrev Registry := List (Int × List Conn)

/-- `sessionConnections[sid]` (undefined when the key is absent). -/
def lookupSession (reg : Registry) (sid : Int) : Option (List Conn) :=
  (reg.find? (fun p => p.1 == sid)).map (fun p => p.2)

/-- `sessionConnections[sid] = conns`: replace the existing key or add it. -/
def setSession (reg : Registry) (sid : Int) (conns : List Conn) : Registry :=
  if reg.any (fun p => p.1 == sid) then
    reg.map (fun p => if p.1 == sid then (sid, conns) else p)
  else
    reg ++ [(sid, conns)]

/-- `delete sessionConnections[sid]`. -/
def deleteSession (reg : Registry) (sid : Int) : Registry :=
  reg.filter (fun p => !(p.1 == sid))

/-- The handler-local state of one WebSocket connection: its socket handle
and the two mutable variables `userId` and `sessionId` of the
`wss.on('connection')` closure (JS `undefined` is `none`). -/
structure ConnLocal where
  ws : Int
  userId : Option Int
  sessionId : Option Int
deriving DecidableEq, Repr

/-- A frame written to a socket by the server. -/
inductive OutFrame where
  | relay (m : WsMessage) : OutFrame
  | errorFrame : OutFrame
  | rosterUpdate (sessionId : Int) (participants : List (Int × String)) : OutFrame
deriving DecidableEq, Repr

/-- One observable effect: `socket.send(JSON.stringify(frame))`. -/
inductive Output where
  | send (sock : Int) (f : OutFrame) : Output
deriving DecidableEq, Repr

/-- Broadcast to every connection of the list whose socket is open
(the chat and sessionUpdate fan-out loops: no sender exclusion). -/
def sendAll (isOpen : Int → Bool) (conns : List Conn) (f : OutFrame) : List Output :=
  (conns.filter (fun k => isOpen k.sock)).map (fun k => Output.send k.sock f)

/-- Broadcast excluding connections whose `userId` equals the handler-local
`userId` (the videoSync loop's `connection.userId !== userId` test; when the
local `userId` is still undefined no connection is excluded). -/
def sendExcept (isOpen : Int → Bool) (uid : Option Int) (conns : List Conn)
    (f : OutFrame) : List Output :=
  (conns.filter (fun k => !(some k.userId == uid) && isOpen k.sock)).map
    (fun k => Output.send k.sock f)

/-- JavaScript truthiness of `number | undefined`: `undefined` and `0` are falsy. -/
def truthy : Option Int → Bool
  | some n => n != 0
  | none => false

/-- The lazy-registration block (routes.ts lines 114-120): if `userId` and
`sessionId` are truthy and no connection with this `userId` is registered in
the session, push `{userId, socket: ws}` onto the session's list. -/
def lazyRegister (reg : Registry) (c : ConnLocal) : Registry :=
  if truthy c.userId && truthy c.sessionId then
    let u := c.userId.getD 0
    let s := c.sessionId.getD 0
    match lookupSession reg s with
    | some conns =>
      if conns.any (fun k => k.userId == u) then reg
      else setSession reg s (conns ++ [Conn.mk u c.ws])
    | none => setSession reg s [Conn.mk u c.ws]
  else reg

/-- The `switch (validatedMessage.type)` on a validated message followed by
the lazy-registration block, all inside the `try`.  For `chat`,
`persistOk = false` means `await storage.createMessage(...)` rejected: the
exception skips fan-out and registration and reaches the catch block, which
does not send an error frame because the error is not a `ZodError`
(the local `sessionId`/`userId` assignments have already happened). -/
def handleEvent (isOpen : Int → Bool) (persistOk : Bool) (reg : Registry)
    (c : ConnLocal) : WsMessage → Registry × ConnLocal × List Output
  | WsMessage.videoSync sid a ts ct =>
    let c' : ConnLocal := { c with sessionId := some sid }
    let out := sendExcept isOpen c.userId ((lookupSession reg sid).getD [])
      (OutFrame.relay (WsMessage.videoSync sid a ts ct))
    (lazyRegister reg c', c', out)
  | WsMessage.chat sid uid un m ts =>
    let c' : ConnLocal := { c with userId := some uid, sessionId := some sid }
    if persistOk then
      (lazyRegister reg c', c',
       sendAll isOpen ((lookupSession reg sid).getD [])
         (OutFrame.relay (WsMessage.chat sid uid un m ts)))
    else
      (reg, c', [])
  | WsMessage.sessionUpdate sid ps =>
    let c' : ConnLocal := { c with sessionId := some sid }
    (lazyRegister reg c', c',
     sendAll isOpen ((lookupSession reg sid).getD [])
       (OutFrame.relay (WsMessage.sessionUpdate sid ps)))

/-- The whole `ws.on('message')` handler on one raw frame.
`raw = none`: `JSON.parse` throws `SyntaxError`; the catch block logs but
sends nothing (the error is not a `ZodError`).  `parseWs = none`: zod throws
a `ZodError`; the catch block sends exactly one error frame to the sender.
Otherwise the validated message is dispatched. -/
def handleMessage (isOpen : Int → Bool) (persistOk : Bool) (reg : Registry)
    (c : ConnLocal) (raw : Option JValue) : Registry × ConnLocal × List Output :=
  match raw with
  | none => (reg, c, [])
  | some j =>
    match parseWs j with
    | none => (reg, c, [Output.send c.ws OutFrame.errorFrame])
    | some m => handleEvent isOpen persistOk reg c m

/-- The connections surviving the close-time filter
`conn => !(conn.userId === userId && conn.socket === ws)`. -/
def closeRemaining (conns : List Conn) (u ws : Int) : List Conn :=
  conns.filter (fun k => !(k.userId == u && k.sock == ws))

/-- The `ws.on('close')` handler: if `sessionId` and `userId` are truthy and
the session key exists, filter this connection out; delete the session key if
the list became empty, otherwise store the filtered list and broadcast a
synthesized `sessionUpdate` (usernames hardcoded `'User'`) to the remaining
open connections. -/
def handleClose (isOpen : Int → Bool) (reg : Registry) (c : ConnLocal) :
    Registry × List Output :=
  if truthy c.sessionId && truthy c.userId then
    let s := c.sessionId.getD 0
    let u := c.userId.getD 0
    match lookupSession reg s with
    | some conns =>
      let remaining := closeRemaining conns u c.ws
      if remaining.isEmpty then (deleteSession reg s, [])
      else
        (setSession reg s remaining,
         sendAll isOpen remaining
           (OutFrame.rosterUpdate s (remaining.map (fun k => (k.userId, "User")))))
    | none => (reg, [])
  else (reg, [])

/-- Run the message handler over a list of inbound raw frames on one
connection, threading the registry and the handler-local state. -/
def runFrames (isOpen : Int → Bool) (persistOk : Bool) :
    Registry → ConnLocal → List (Option JValue) → Registry × ConnLocal
  | reg, c, [] => (reg, c)
  | reg, c, r :: rs =>
    let step := handleMessage isOpen persistOk reg c r
    runFrames isOpen persistOk step.1 step.2.1 rs

/-- All socket handles referenced anywhere in the registry. -/
def socksOf : Registry → List Int
  | [] => []
  | (_, conns) :: rest => conns.map (fun k => k.sock) ++ socksOf rest

/-- A concrete JSON `chat` frame, as a client would send it. -/
def chatJ (sid uid : Int) (un body : String) (ts : Int) : JValue :=
  JValue.jobj [("type", JValue.jstr "chat"), ("sessionId", JValue.jnum sid),
    ("userId", JValue.jnum uid), ("username", JValue.jstr un),
    ("message", JValue.jstr body), ("timestamp", JValue.jnum ts)]

/-- A concrete JSON `videoSync` frame with no optional fields. -/
def vsyncJ (sid : Int) (act : String) : JValue :=
  JValue.jobj [("type", JValue.jstr "videoSync"),
    ("sessionId", JValue.jnum sid), ("action", JValue.jstr act)]

/-- The all-open socket oracle. -/
def openAll : Int → Bool := fun _ => true

/-! ## Registry lemmas -/

/-- Deleting a session key makes its lookup `undefined`. -/
theorem lookup_deleteSession_self (reg : Registry) (s : Int) :
    lookupSession (deleteSession reg s) s = none := by
  simp only [lookupSession, deleteSession, Option.map_eq_none']
  rw [List.find?_eq_none]
  intro x hx
  rcases List.mem_filter.mp hx with ⟨_, hpx⟩
  simpa using hpx

/-- Replacing the key `s` makes every other lookup unchanged (map branch). -/
theorem find_replace_ne (rest : Registry) (s sb : Int) (v : List Conn) (h : sb ≠ s) :
    (rest.map (fun p => if p.1 == s then (s, v) else p)).find? (fun p => p.1 == sb) =
      rest.find? (fun p => p.1 == sb) := by
  induction rest with
  | nil => rfl
  | cons p t ih =>
    by_cases hp : p.1 = s
    · have h1 : (if p.1 == s then ((s, v) : Int × List Conn) else p) = (s, v) := by
        simp [hp]
      have hv : ((s : Int) == sb) = false := by
        simp
        exact fun he => h he.symm
      have hpv : (p.1 == sb) = false := by rw [hp]; exact hv
      simp only [List.map_cons, h1, List.find?_cons, hv, hpv]
      exact ih
    · have h1 : (if p.1 == s then ((s, v) : Int × List Conn) else p) = p := by
        simp [hp]
      by_cases hq : p.1 = sb
      · have hqv : (p.1 == sb) = true := by simp [hq]
        simp only [List.map_cons, h1, List.find?_cons, hqv]
      · have hqv : (p.1 == sb) = false := by simp [hq]
        simp only [List.map_cons, h1, List.find?_cons, hqv]
        exact ih

/-- Appending the key `s` leaves every other lookup unchanged (append branch). -/
theorem find_append_ne (rest : Registry) (s sb : Int) (v : List Conn) (h : sb ≠ s) :
    (rest ++ [(s, v)]).find? (fun p => p.1 == sb) = rest.find? (fun p => p.1 == sb) := by
  induction rest with
  | nil =>
    have hv : ((s : Int) == sb) = false := by
      simp
      exact fun he => h he.symm
    simp only [List.nil_append, List.find?_cons, hv]
  | cons p t ih =>
    by_cases hq : p.1 = sb
    · have hqv : (p.1 == sb) = true := by simp [hq]
      simp only [List.cons_append, List.find?_cons, hqv]
    · have hqv : (p.1 == sb) = false := by simp [hq]
      simp only [List.cons_append, List.find?_cons, hqv]
      exact ih

/-- After replacing key `s`, looking up `s` yields the new value (map branch). -/
theorem find_replace_self (rest : Registry) (s : Int) (v : List Conn)
    (hany : rest.any (fun p => p.1 == s) = true) :
    (rest.map (fun p => if p.1 == s then (s, v) else p)).find? (fun p => p.1 == s) =
      some (s, v) := by
  induction rest with
  | nil => simp at hany
  | cons p t ih =>
    by_cases hp : p.1 = s
    · have h1 : (if p.1 == s then ((s, v) : Int × List Conn) else p) = (s, v) := by
        simp [hp]
      simp only [List.map_cons, h1, List.find?_cons, beq_self_eq_true]
    · have h1 : (if p.1 == s then ((s, v) : Int × List Conn) else p) = p := by
        simp [hp]
      have hpv : (p.1 == s) = false := by simp [hp]
      have hany' : t.any (fun p => p.1 == s) = true := by
        rw [List.any_cons, hpv, Bool.false_or] at hany
        exact hany
      rw [List.map_cons, h1]
      simp only [List.find?_cons, hpv]
      exact ih hany'

/-- After appending key `s`, looking up `s` yields the new value (append branch). -/
theorem find_append_self (rest : Registry) (s : Int) (v : List Conn)
    (hnone : rest.any (fun p => p.1 == s) = false) :
    (rest ++ [(s, v)]).find? (fun p => p.1 == s) = some (s, v) := by
  induction rest with
  | nil =>
    simp only [List.nil_append, List.find?_cons, beq_self_eq_true]
  | cons p t ih =>
    rw [List.any_cons] at hnone
    have hpv : (p.1 == s) = false := by
      cases hb : (p.1 == s) with
      | false => rfl
      | true => rw [hb, Bool.true_or] at hnone; exact hnone.symm ▸ rfl
    have ht : t.any (fun p => p.1 == s) = false := by
      rw [hpv, Bool.false_or] at hnone
      exact hnone
    simp only [List.cons_append, List.find?_cons, hpv]
    exact ih ht

/-- `setSession` does not disturb lookups of other keys. -/
theorem lookup_setSession_ne (reg : Registry) (s sb : Int) (v : List Conn) (h : sb ≠ s) :
    lookupSession (setSession reg s v) sb = lookupSession reg sb := by
  by_cases ha : reg.any (fun p => p.1 == s) = true
  · simp only [setSession, lookupSession, if_pos ha, find_replace_ne reg s sb v h]
  · simp only [setSession, lookupSession, if_neg ha, find_append_ne reg s sb v h]

/-- `setSession` followed by a lookup of the same key yields the stored value. -/
theorem lookup_setSession_self (reg : Registry) (s : Int) (v : List Conn) :
    lookupSession (setSession reg s v) s = some v := by
  by_cases ha : reg.any (fun p => p.1 == s) = true
  · simp only [setSession, lookupSession, if_pos ha, find_replace_self reg s v ha]
    rfl
  · simp only [setSession, lookupSession, if_neg ha,
      find_append_self reg s v (Bool.eq_false_iff.mpr ha)]
    rfl

/-- Writing back the value that is already stored is the identity, provided the
registry has no duplicate session keys (true of every reachable registry). -/
theorem setSession_eq_self (reg : Registry) (s : Int) (conns : List Conn)
    (hnd : (reg.map Prod.fst).Nodup)
    (hl : lookupSession reg s = some conns) :
    setSession reg s conns = reg := by
  obtain ⟨q, hq, hq2⟩ := Option.map_eq_some'.mp hl
  have hmem := List.mem_of_find?_eq_some hq
  have hpred := List.find?_some hq
  have hq1 : q.1 = s := by simpa using hpred
  have hany : reg.any (fun p => p.1 == s) = true :=
    List.any_eq_true.mpr ⟨q, hmem, hpred⟩
  have hrw : ∀ p ∈ reg, (if p.1 == s then ((s, conns) : Int × List Conn) else p) = id p := by
    intro p hp
    by_cases h : p.1 = s
    · have hpq : p = q := List.inj_on_of_nodup_map hnd hp hmem (by rw [h, hq1])
      have hgoal : ((s, conns) : Int × List Conn) = p := by
        rw [hpq, ← hq1, ← hq2]
      simp only [h, beq_self_eq_true, if_true, id]
      exact hgoal
    · simp [h]
  simp only [setSession, if_pos hany]
  rw [List.map_congr_left hrw, List.map_id]

/-- A connection found in some session's list has its socket in `socksOf`. -/
theorem sock_mem_socksOf (reg : Registry) (s : Int) (conns : List Conn) (k : Conn)
    (hl : lookupSession reg s = some conns) (hk : k ∈ conns) :
    k.sock ∈ socksOf reg := by
  induction reg with
  | nil => simp [lookupSession] at hl
  | cons p rest ih =>
    by_cases hp : p.1 = s
    · have : p.2 = conns := by
        simp [lookupSession, List.find?_cons_of_pos, hp] at hl
        exact hl
      subst this
      exact List.mem_append_left _ (List.mem_map.mpr ⟨k, hk, rfl⟩)
    · have hl' : lookupSession rest s = some conns := by
        simpa [lookupSession, List.find?_cons_of_neg, hp] using hl
      exact List.mem_append_right _ (ih hl')

/-- Any socket targeted by `sendAll` belongs to a connection of the list. -/
theorem sendAll_target_mem (isOpen : Int → Bool) (conns : List Conn) (f : OutFrame)
    (t : Int) (g : OutFrame) (h : Output.send t g ∈ sendAll isOpen conns f) :
    ∃ k ∈ conns, k.sock = t := by
  simp only [sendAll, List.mem_map, List.mem_filter, Output.send.injEq] at h
  obtain ⟨k, ⟨hk, _⟩, hkt, _⟩ := h
  exact ⟨k, hk, hkt⟩

/-- Any socket targeted by `sendExcept` belongs to a connection of the list. -/
theorem sendExcept_target_mem (isOpen : Int → Bool) (uid : Option Int)
    (conns : List Conn) (f : OutFrame) (t : Int) (g : OutFrame)
    (h : Output.send t g ∈ sendExcept isOpen uid conns f) :
    ∃ k ∈ conns, k.sock = t := by
  simp only [sendExcept, List.mem_map, List.mem_filter, Output.send.injEq] at h
  obtain ⟨k, ⟨hk, _⟩, hkt, _⟩ := h
  exact ⟨k, hk, hkt⟩

/-- A connection of the (possibly absent) session list has its socket in the registry. -/
theorem mem_getD_sock (reg : Registry) (s : Int) (k : Conn)
    (hk : k ∈ (lookupSession reg s).getD []) : k.sock ∈ socksOf reg := by
  cases hl : lookupSession reg s with
  | none => rw [hl] at hk; simp at hk
  | some conns => rw [hl] at hk; exact sock_mem_socksOf reg s conns k hl hk

/-- Every relayed (fan-out) frame produced by the message handler is sent to a
socket that was registered in the pre-state registry: fan-out never reaches an
unregistered socket. -/
theorem handleMessage_relay_target (isOpen : Int → Bool) (pk : Bool) (reg : Registry)
    (c : ConnLocal) (raw : Option JValue) (t : Int) (m : WsMessage)
    (h : Output.send t (OutFrame.relay m) ∈ (handleMessage isOpen pk reg c raw).2.2) :
    t ∈ socksOf reg := by
  cases raw with
  | none => simp [handleMessage] at h
  | some j =>
    cases hp : parseWs j with
    | none => simp [handleMessage, hp] at h
    | some msg =>
      simp only [handleMessage, hp] at h
      cases msg with
      | videoSync sid a ts ct =>
        simp only [handleEvent] at h
        obtain ⟨k, hk, hkt⟩ := sendExcept_target_mem _ _ _ _ _ _ h
        exact hkt ▸ mem_getD_sock reg sid k hk
      | chat sid uid un mg ts =>
        cases pk with
        | false => simp [handleEvent] at h
        | true =>
          simp only [handleEvent, if_true] at h
          obtain ⟨k, hk, hkt⟩ := sendAll_target_mem _ _ _ _ _ h
          exact hkt ▸ mem_getD_sock reg sid k hk
      | sessionUpdate sid ps =>
        simp only [handleEvent] at h
        obtain ⟨k, hk, hkt⟩ := sendAll_target_mem _ _ _ _ _ h
        exact hkt ▸ mem_getD_sock reg sid k hk

/-! ## Claims -/

/-- C1 counterexample: the claim says a chat frame is fanned out to all
registered connections even when the durability write fails.  In the code the
failed `await storage.createMessage` throws into the catch block before the
fan-out loop runs: with session 1 holding two open registered connections
(the sender among them), a chat frame with `persistOk = false` produces no
sends at all. -/
theorem C1_persist_failure_drops_fanout_cex :
    (handleMessage openAll false [(1, [Conn.mk 7 100, Conn.mk 8 101])]
      (ConnLocal.mk 100 (some 7) (some 1)) (some (chatJ 1 7 "alice" "hi" 5))).2.2 = [] ∧
    ((lookupSession [(1, [Conn.mk 7 100, Conn.mk 8 101])] 1).getD []).length = 2 :=
  ⟨rfl, rfl⟩

/-- C1 (amended): a valid chat frame for session `sid` is fanned out to all
currently-registered connections of `sid` with an open socket, including the
sender's own entry (no exclusion), but only when the durability write
succeeds; when `storage.createMessage` fails, the thrown exception aborts the
handler and no fan-out at all occurs. -/
theorem C1_chat_fanout_requires_persist (isOpen : Int → Bool) (reg : Registry)
    (c : ConnLocal) (j : JValue) (sid uid : Int) (un body : String) (ts : Int)
    (h : parseWs j = some (WsMessage.chat sid uid un body ts)) :
    (handleMessage isOpen true reg c (some j)).2.2 =
      sendAll isOpen ((lookupSession reg sid).getD [])
        (OutFrame.relay (WsMessage.chat sid uid un body ts)) ∧
    (handleMessage isOpen false reg c (some j)).2.2 = [] := by
  constructor <;> simp [handleMessage, h, handleEvent]

/-- C1 witness: concrete instance of the amended theorem. -/
theorem C1_chat_fanout_requires_persist_witness :
    (handleMessage openAll true [(1, [Conn.mk 7 100, Conn.mk 8 101])]
      (ConnLocal.mk 100 (some 7) (some 1)) (some (chatJ 1 7 "alice" "hi" 5))).2.2 =
      sendAll openAll ((lookupSession [(1, [Conn.mk 7 100, Conn.mk 8 101])] 1).getD [])
        (OutFrame.relay (WsMessage.chat 1 7 "alice" "hi" 5)) ∧
    (handleMessage openAll false [(1, [Conn.mk 7 100, Conn.mk 8 101])]
      (ConnLocal.mk 100 (some 7) (some 1)) (some (chatJ 1 7 "alice" "hi" 5))).2.2 = [] :=
  C1_chat_fanout_requires_persist openAll [(1, [Conn.mk 7 100, Conn.mk 8 101])]
    (ConnLocal.mk 100 (some 7) (some 1)) (chatJ 1 7 "alice" "hi" 5) 1 7 "alice" "hi" 5 rfl

/-- C2: a videoSync frame from a connection whose bound identity is `A` is
relayed to exactly those registry entries of the frame's session whose
`userId` differs from `A` and whose socket is open — every other
currently-registered open connection receives it, and no entry owned by `A`
is sent to. -/
theorem C2_videoSync_routing (isOpen : Int → Bool) (pk : Bool) (reg : Registry)
    (c : ConnLocal) (j : JValue) (sid : Int) (a : SyncAction) (ts ct : Option Int)
    (A : Int) (hid : c.userId = some A)
    (h : parseWs j = some (WsMessage.videoSync sid a ts ct)) :
    (handleMessage isOpen pk reg c (some j)).2.2 =
      (((lookupSession reg sid).getD []).filter
        (fun k => !(k.userId == A) && isOpen k.sock)).map
        (fun k => Output.send k.sock (OutFrame.relay (WsMessage.videoSync sid a ts ct))) := by
  simp only [handleMessage, h, handleEvent, sendExcept, hid]
  rfl

/-- C2 witness: user 7 sends a videoSync into session 5 with three
registered connections; entries for users 8 and 9 receive it, user 7's does not. -/
theorem C2_videoSync_routing_witness :
    (handleMessage openAll true [(5, [Conn.mk 7 100, Conn.mk 8 101, Conn.mk 9 102])]
      (ConnLocal.mk 100 (some 7) (some 5)) (some (vsyncJ 5 "play"))).2.2 =
      (((lookupSession [(5, [Conn.mk 7 100, Conn.mk 8 101, Conn.mk 9 102])] 5).getD
        []).filter (fun k => !(k.userId == 7) && openAll k.sock)).map
        (fun k => Output.send k.sock
          (OutFrame.relay (WsMessage.videoSync 5 SyncAction.play none none))) :=
  C2_videoSync_routing openAll true [(5, [Conn.mk 7 100, Conn.mk 8 101, Conn.mk 9 102])]
    (ConnLocal.mk 100 (some 7) (some 5)) (vsyncJ 5 "play") 5 SyncAction.play none none 7
    rfl rfl

/-- C3 counterexample: the claim says a second connection establishing an
already-registered (sessionId, userId) identity replaces the stored entry
with the new handle.  In the code the lazy-registration guard skips the push
whenever some entry with that `userId` exists: after a chat frame from a new
connection (socket 101) for the pair (1, 7), the registry still holds only
the old entry with socket 100. -/
theorem C3_duplicate_not_replaced_cex :
    (handleMessage openAll true [(1, [Conn.mk 7 100])] (ConnLocal.mk 101 none none)
      (some (chatJ 1 7 "alice" "hi" 0))).1 = [(1, [Conn.mk 7 100])] ∧
    (handleMessage openAll true [(1, [Conn.mk 7 100])] (ConnLocal.mk 101 none none)
      (some (chatJ 1 7 "alice" "hi" 0))).1 ≠ [(1, [Conn.mk 7 101])] :=
  ⟨rfl, by decide⟩

/-- C3 (amended): registration is insert-if-absent, not insert-or-replace:
when the session already holds an entry with the frame's `userId`, handling a
chat frame from any connection leaves the registry completely unchanged — the
stored entry keeps the original connection's handle. -/
theorem C3_register_insert_if_absent (isOpen : Int → Bool) (pk : Bool) (reg : Registry)
    (c : ConnLocal) (j : JValue) (sid uid : Int) (un body : String) (ts : Int)
    (h : parseWs j = some (WsMessage.chat sid uid un body ts))
    (hdup : ((lookupSession reg sid).getD []).any (fun k => k.userId == uid) = true) :
    (handleMessage isOpen pk reg c (some j)).1 = reg := by
  cases pk with
  | false => simp [handleMessage, h, handleEvent]
  | true =>
    simp only [handleMessage, h, handleEvent, if_true]
    unfold lazyRegister
    cases hl : lookupSession reg sid with
    | none => rw [hl] at hdup; simp at hdup
    | some conns =>
      rw [hl] at hdup
      simp only [Option.getD_some] at hdup
      simp [hl, hdup]

/-- C3 witness: concrete instance of the amended theorem. -/
theorem C3_register_insert_if_absent_witness :
    (handleMessage openAll true [(1, [Conn.mk 7 100])] (ConnLocal.mk 101 none none)
      (some (chatJ 1 7 "bob" "yo" 3))).1 = [(1, [Conn.mk 7 100])] :=
  C3_register_insert_if_absent openAll true [(1, [Conn.mk 7 100])]
    (ConnLocal.mk 101 none none) (chatJ 1 7 "bob" "yo" 3) 1 7 "bob" "yo" 3 rfl rfl

/-- C4: a close event for a bound connection whose handle does not match any
stored entry for that (sessionId, userId) leaves the registry unchanged: the
close-time filter `conn.userId === userId && conn.socket === ws` removes
nothing, so a stale close callback never evicts a newer connection.  (The
registry is assumed to have no duplicate session keys, which holds for every
registry reachable from the empty one.) -/
theorem C4_stale_close_noop (isOpen : Int → Bool) (reg : Registry) (c : ConnLocal)
    (s u : Int) (conns : List Conn)
    (hs : c.sessionId = some s) (hu : c.userId = some u)
    (hs0 : s ≠ 0) (hu0 : u ≠ 0)
    (hnd : (reg.map Prod.fst).Nodup)
    (hl : lookupSession reg s = some conns)
    (hne : conns ≠ [])
    (hmiss : ∀ k ∈ conns, ¬(k.userId = u ∧ k.sock = c.ws)) :
    (handleClose isOpen reg c).1 = reg := by
  have hfil : closeRemaining conns u c.ws = conns := by
    rw [closeRemaining, List.filter_eq_self]
    intro k hk
    have hx := hmiss k hk
    simp
    tauto
  have hcond : ((s != 0) && (u != 0)) = true := by simp [hs0, hu0]
  have hie : conns.isEmpty = false := by
    cases conns with
    | nil => exact absurd rfl hne
    | cons a l => rfl
  simp only [handleClose, hs, hu, truthy, hcond, if_true, Option.getD_some, hl,
    hfil, hie, Bool.false_eq_true, if_false]
  exact setSession_eq_self reg s conns hnd hl

/-- C4 witness: session 1 stores (user 7, socket 100); a close arrives for the
same user but socket 101; the registry is untouched. -/
theorem C4_stale_close_noop_witness :
    (handleClose openAll [(1, [Conn.mk 7 100])] (ConnLocal.mk 101 (some 7) (some 1))).1 =
      [(1, [Conn.mk 7 100])] :=
  C4_stale_close_noop openAll [(1, [Conn.mk 7 100])] (ConnLocal.mk 101 (some 7) (some 1))
    1 7 [Conn.mk 7 100] rfl rfl (by decide) (by decide) (by decide) rfl
    (by decide) (by decide)

/-- C5: when the close-time filter removes the last entry of session `s`, the
session key is deleted outright: a subsequent lookup is `undefined` (`none`),
not an empty-list placeholder. -/
theorem C5_last_close_deletes_session (isOpen : Int → Bool) (reg : Registry)
    (c : ConnLocal) (s u : Int) (conns : List Conn)
    (hs : c.sessionId = some s) (hu : c.userId = some u)
    (hs0 : s ≠ 0) (hu0 : u ≠ 0)
    (hl : lookupSession reg s = some conns)
    (hall : closeRemaining conns u c.ws = []) :
    lookupSession (handleClose isOpen reg c).1 s = none := by
  have hcond : ((s != 0) && (u != 0)) = true := by simp [hs0, hu0]
  have hie : (closeRemaining conns u c.ws).isEmpty = true := by rw [hall]; rfl
  simp only [handleClose, hs, hu, truthy, hcond, if_true, Option.getD_some, hl,
    hie]
  exact lookup_deleteSession_self reg s

/-- C5 witness: the sole connection of session 1 closes; looking session 1 up
afterwards yields `none`. -/
theorem C5_last_close_deletes_session_witness :
    lookupSession (handleClose openAll [(1, [Conn.mk 7 100])]
      (ConnLocal.mk 100 (some 7) (some 1))).1 1 = none :=
  C5_last_close_deletes_session openAll [(1, [Conn.mk 7 100])]
    (ConnLocal.mk 100 (some 7) (some 1)) 1 7 [Conn.mk 7 100] rfl rfl
    (by decide) (by decide) rfl (by decide)

/-- C6 counterexample: the claim says a malformed (non-parseable) frame is
answered with exactly one error frame.  In the code `JSON.parse` throws a
`SyntaxError`, which is not a `ZodError`, so the catch block sends nothing:
the handler produces no output at all on a non-parseable frame. -/
theorem C6_unparseable_silent_cex :
    (handleMessage openAll true [(1, [Conn.mk 7 100])]
      (ConnLocal.mk 100 (some 7) (some 1)) none).2.2 = [] := rfl

/-- C6 (amended): a frame that parses as JSON but fails schema validation
(missing/unknown discriminator or schema mismatch, i.e. a `ZodError`) is
answered with exactly one error frame to the originating connection only,
with no fan-out, no registry change and no state change (and the model has no
close action: the connection stays open); a NON-parseable frame, however, is
dropped silently — the `SyntaxError` is not a `ZodError`, so no error frame
is sent (still no fan-out, no registry change, no close). -/
theorem C6_decode_error_reply (isOpen : Int → Bool) (pk : Bool) (reg : Registry)
    (c : ConnLocal) (j : JValue) (h : parseWs j = none) :
    handleMessage isOpen pk reg c (some j) =
      (reg, c, [Output.send c.ws OutFrame.errorFrame]) ∧
    handleMessage isOpen pk reg c none = (reg, c, []) := by
  constructor
  · simp [handleMessage, h]
  · rfl

/-- C6 witness: a JSON object with an unknown discriminator gets exactly one
error frame; an unparseable frame gets nothing. -/
theorem C6_decode_error_reply_witness :
    handleMessage openAll true [(1, [Conn.mk 7 100])] (ConnLocal.mk 100 (some 7) (some 1))
      (some (JValue.jobj [("type", JValue.jstr "bogus")])) =
      ([(1, [Conn.mk 7 100])], ConnLocal.mk 100 (some 7) (some 1),
        [Output.send 100 OutFrame.errorFrame]) ∧
    handleMessage openAll true [(1, [Conn.mk 7 100])] (ConnLocal.mk 100 (some 7) (some 1))
      none = ([(1, [Conn.mk 7 100])], ConnLocal.mk 100 (some 7) (some 1), []) :=
  C6_decode_error_reply openAll true [(1, [Conn.mk 7 100])]
    (ConnLocal.mk 100 (some 7) (some 1)) (JValue.jobj [("type", JValue.jstr "bogus")]) rfl

/-- C7: a JSON object whose discriminator is `chat` but whose `message` field
is absent fails `wsMessageSchema` validation (a `ZodError`), so the handler
sends exactly one error frame back to the sender, changes nothing, and fans
nothing out — the frame is never forwarded partially filled. -/
theorem C7_chat_missing_message (isOpen : Int → Bool) (pk : Bool) (reg : Registry)
    (c : ConnLocal) (fields : List (String × JValue))
    (hty : getField fields "type" = some (JValue.jstr "chat"))
    (hmsg : getField fields "message" = none) :
    handleMessage isOpen pk reg c (some (JValue.jobj fields)) =
      (reg, c, [Output.send c.ws OutFrame.errorFrame]) := by
  have hms : reqStr fields "message" = none := by
    rw [reqStr, hmsg]
  have hparse : parseWs (JValue.jobj fields) = none := by
    simp only [parseWs, hty]
    cases h1 : reqNum fields "sessionId" <;>
      cases h2 : reqNum fields "userId" <;>
        cases h3 : reqStr fields "username" <;>
          simp [hms]
  simp [handleMessage, hparse]

/-- C7 witness: a chat frame with every field but `message` present is
answered with one error frame and nothing else. -/
theorem C7_chat_missing_message_witness :
    handleMessage openAll true [(1, [Conn.mk 7 100, Conn.mk 8 101])]
      (ConnLocal.mk 100 (some 7) (some 1))
      (some (JValue.jobj [("type", JValue.jstr "chat"), ("sessionId", JValue.jnum 1),
        ("userId", JValue.jnum 7), ("username", JValue.jstr "alice"),
        ("timestamp", JValue.jnum 5)])) =
      ([(1, [Conn.mk 7 100, Conn.mk 8 101])], ConnLocal.mk 100 (some 7) (some 1),
        [Output.send 100 OutFrame.errorFrame]) :=
  C7_chat_missing_message openAll true [(1, [Conn.mk 7 100, Conn.mk 8 101])]
    (ConnLocal.mk 100 (some 7) (some 1))
    [("type", JValue.jstr "chat"), ("sessionId", JValue.jnum 1),
      ("userId", JValue.jnum 7), ("username", JValue.jstr "alice"),
      ("timestamp", JValue.jnum 5)] rfl rfl

/-- C8: when a bound connection closes, its stored entry is removed and the
session still has survivors, every surviving entry with an open socket is
sent exactly one synthesized `sessionUpdate` whose participants list is
exactly the userIds still registered in the session (each with the hardcoded
username `'User'`). -/
theorem C8_roster_on_close (isOpen : Int → Bool) (reg : Registry) (c : ConnLocal)
    (s u : Int) (conns : List Conn)
    (hs : c.sessionId = some s) (hu : c.userId = some u)
    (hs0 : s ≠ 0) (hu0 : u ≠ 0)
    (hl : lookupSession reg s = some conns)
    (_hrm : Conn.mk u c.ws ∈ conns)
    (hrem : closeRemaining conns u c.ws ≠ []) :
    (handleClose isOpen reg c).2 =
      sendAll isOpen (closeRemaining conns u c.ws)
        (OutFrame.rosterUpdate s
          ((closeRemaining conns u c.ws).map (fun k => (k.userId, "User")))) := by
  have hcond : ((s != 0) && (u != 0)) = true := by simp [hs0, hu0]
  have hie : (closeRemaining conns u c.ws).isEmpty = false := by
    cases hc : closeRemaining conns u c.ws with
    | nil => exact absurd hc hrem
    | cons a l => rfl
  simp only [handleClose, hs, hu, truthy, hcond, if_true, Option.getD_some, hl,
    hie, Bool.false_eq_true, if_false]

/-- C8 witness: users 1 and 2 are in session 42; user 2's connection closes;
user 1 receives one sessionUpdate listing only user 1. -/
theorem C8_roster_on_close_witness :
    (handleClose openAll [(42, [Conn.mk 1 100, Conn.mk 2 101])]
      (ConnLocal.mk 101 (some 2) (some 42))).2 =
      sendAll openAll (closeRemaining [Conn.mk 1 100, Conn.mk 2 101] 2 101)
        (OutFrame.rosterUpdate 42
          ((closeRemaining [Conn.mk 1 100, Conn.mk 2 101] 2 101).map
            (fun k => (k.userId, "User")))) :=
  C8_roster_on_close openAll [(42, [Conn.mk 1 100, Conn.mk 2 101])]
    (ConnLocal.mk 101 (some 2) (some 42)) 42 2 [Conn.mk 1 100, Conn.mk 2 101]
    rfl rfl (by decide) (by decide) rfl (by decide) (by decide)

/-- C9 counterexample: the claim says a connection appears in at most one
session's set and that membership never changes from frame content.  Here one
connection (socket 100) first chats in session 1 (registering there), then
sends a videoSync frame naming session 2: the lazy-registration block re-runs
with the rebound handler-local `sessionId` and pushes the same socket into
session 2's set while it remains in session 1's — two sets at once, caused
purely by the content of a later frame. -/
theorem C9_cross_session_membership_cex :
    (handleMessage openAll true
      (handleMessage openAll true [] (ConnLocal.mk 100 none none)
        (some (chatJ 1 7 "alice" "hi" 0))).1
      (handleMessage openAll true [] (ConnLocal.mk 100 none none)
        (some (chatJ 1 7 "alice" "hi" 0))).2.1
      (some (vsyncJ 2 "play"))).1 = [(1, [Conn.mk 7 100]), (2, [Conn.mk 7 100])] := rfl

/-- C9 (amended): registry membership is NOT confined to connection lifecycle
events and a connection is NOT confined to one session's set: once a
connection's identity is bound, any later frame carrying a fresh `sessionId`
(here a videoSync, which triggers no registration per the claim's own
reading) re-registers the connection into that session, while every other
session's entry — including the one it already occupies — is left unchanged. -/
theorem C9_frame_content_changes_membership (isOpen : Int → Bool) (pk : Bool)
    (reg : Registry) (c : ConnLocal) (j : JValue) (sid : Int) (a : SyncAction)
    (ts ct : Option Int) (u : Int)
    (hu : c.userId = some u) (hu0 : u ≠ 0) (hs0 : sid ≠ 0)
    (h : parseWs j = some (WsMessage.videoSync sid a ts ct))
    (habs : ∀ k ∈ (lookupSession reg sid).getD [], ¬ k.userId = u) :
    Conn.mk u c.ws ∈
      (lookupSession (handleMessage isOpen pk reg c (some j)).1 sid).getD [] ∧
    ∀ sb, sb ≠ sid →
      lookupSession (handleMessage isOpen pk reg c (some j)).1 sb =
        lookupSession reg sb := by
  have hreg : (handleMessage isOpen pk reg c (some j)).1 =
      lazyRegister reg (ConnLocal.mk c.ws c.userId (some sid)) := by
    simp [handleMessage, h, handleEvent]
  have ht : (truthy (some u) && truthy (some sid)) = true := by
    simp [truthy, hu0, hs0]
  rw [hreg]
  unfold lazyRegister
  simp only [hu, ht, if_true, Option.getD_some]
  cases hl : lookupSession reg sid with
  | none =>
    simp only []
    constructor
    · have hres : Conn.mk u c.ws ∈
          (lookupSession (setSession reg sid [Conn.mk u c.ws]) sid).getD [] := by
        rw [lookup_setSession_self]
        simp
      exact hres
    · intro sb hsb
      exact lookup_setSession_ne reg sid sb [Conn.mk u c.ws] hsb
  | some conns =>
    have hany : conns.any (fun k => k.userId == u) = false := by
      cases hany : conns.any (fun k => k.userId == u) with
      | false => rfl
      | true =>
        obtain ⟨k, hk, hpk⟩ := List.any_eq_true.mp hany
        rw [hl] at habs
        exact absurd (by simpa using hpk) (habs k (by simpa using hk))
    simp only []
    rw [hany]
    constructor
    · have hres : Conn.mk u c.ws ∈
          (lookupSession (setSession reg sid (conns ++ [Conn.mk u c.ws])) sid).getD [] := by
        rw [lookup_setSession_self]
        simp
      exact hres
    · intro sb hsb
      exact lookup_setSession_ne reg sid sb (conns ++ [Conn.mk u c.ws]) hsb

/-- C9 witness: concrete instance of the amended theorem — user 7's
connection, already in session 1, is added to session 2 by a videoSync frame,
and session 1's entry is untouched. -/
theorem C9_frame_content_changes_membership_witness :
    Conn.mk 7 100 ∈
      (lookupSession (handleMessage openAll true [(1, [Conn.mk 7 100])]
        (ConnLocal.mk 100 (some 7) (some 1)) (some (vsyncJ 2 "play"))).1 2).getD [] ∧
    lookupSession (handleMessage openAll true [(1, [Conn.mk 7 100])]
      (ConnLocal.mk 100 (some 7) (some 1)) (some (vsyncJ 2 "play"))).1 1 =
      lookupSession [(1, [Conn.mk 7 100])] 1 := by
  have hx := C9_frame_content_changes_membership openAll true [(1, [Conn.mk 7 100])]
    (ConnLocal.mk 100 (some 7) (some 1)) (vsyncJ 2 "play") 2 SyncAction.play none none 7
    rfl (by decide) (by decide) rfl (by decide)
  exact ⟨hx.1, hx.2 1 (by decide)⟩

/-- Auxiliary for C10: a run of frames that all validate as `videoSync` on a
connection with unbound identity leaves the registry untouched and the
identity unbound (the videoSync case assigns only `sessionId`, and the
lazy-registration guard requires a truthy `userId`). -/
theorem runFrames_videoSync_aux (isOpen : Int → Bool) (pk : Bool) :
    ∀ (raws : List (Option JValue)) (reg : Registry) (c : ConnLocal),
      c.userId = none →
      (∀ r ∈ raws, ∃ j sid a ts ct, r = some j ∧
        parseWs j = some (WsMessage.videoSync sid a ts ct)) →
      (runFrames isOpen pk reg c raws).1 = reg ∧
        (runFrames isOpen pk reg c raws).2.userId = none := by
  intro raws
  induction raws with
  | nil =>
    intro reg c hu _
    exact ⟨rfl, hu⟩
  | cons r rs ih =>
    intro reg c hu hvs
    obtain ⟨j, sid, a, ts, ct, hr, hj⟩ := hvs r (List.mem_cons_self r rs)
    subst hr
    have h1 : (handleMessage isOpen pk reg c (some j)).1 = reg := by
      simp [handleMessage, hj, handleEvent, lazyRegister, truthy, hu]
    have h2 : (handleMessage isOpen pk reg c (some j)).2.1.userId = none := by
      simp [handleMessage, hj, handleEvent, hu]
    have hrec := ih (handleMessage isOpen pk reg c (some j)).1
      (handleMessage isOpen pk reg c (some j)).2.1 h2
      (fun r hr => hvs r (List.mem_cons_of_mem _ hr))
    simp only [runFrames]
    exact ⟨hrec.1.trans h1, hrec.2⟩

/-- C10: a connection that has only ever sent videoSync frames never binds a
`userId` and is never added to the registry (the registry is unchanged by its
whole run of frames); moreover every relayed frame targets only sockets that
are registered, so a socket absent from the registry receives no fan-out from
its session's peers. -/
theorem C10_videoSync_only_never_registered (isOpen : Int → Bool) (pk : Bool)
    (reg : Registry) (c : ConnLocal) (raws : List (Option JValue))
    (hu : c.userId = none)
    (hvs : ∀ r ∈ raws, ∃ j sid a ts ct, r = some j ∧
      parseWs j = some (WsMessage.videoSync sid a ts ct)) :
    (runFrames isOpen pk reg c raws).1 = reg ∧
    (runFrames isOpen pk reg c raws).2.userId = none ∧
    (∀ t, t ∉ socksOf reg →
      ∀ (c2 : ConnLocal) (raw : Option JValue) (m : WsMessage),
        Output.send t (OutFrame.relay m) ∉
          (handleMessage isOpen pk reg c2 raw).2.2) := by
  obtain ⟨ha, hb⟩ := runFrames_videoSync_aux isOpen pk raws reg c hu hvs
  exact ⟨ha, hb, fun t htn c2 raw m hmem =>
    htn (handleMessage_relay_target isOpen pk reg c2 raw t m hmem)⟩

/-- C10 witness: socket 200 sends two videoSync frames into session 1 and is
never registered; socket 200 receives no relayed frame from another
connection's videoSync in that session. -/
theorem C10_videoSync_only_never_registered_witness :
    (runFrames openAll true [(1, [Conn.mk 7 100])] (ConnLocal.mk 200 none (some 1))
      [some (vsyncJ 1 "play"), some (vsyncJ 1 "pause")]).1 = [(1, [Conn.mk 7 100])] ∧
    (runFrames openAll true [(1, [Conn.mk 7 100])] (ConnLocal.mk 200 none (some 1))
      [some (vsyncJ 1 "play"), some (vsyncJ 1 "pause")]).2.userId = none ∧
    Output.send 200 (OutFrame.relay (WsMessage.videoSync 1 SyncAction.play none none)) ∉
      (handleMessage openAll true [(1, [Conn.mk 7 100])]
        (ConnLocal.mk 300 (some 9) (some 1)) (some (vsyncJ 1 "play"))).2.2 := by
  have hx := C10_videoSync_only_never_registered openAll true [(1, [Conn.mk 7 100])]
    (ConnLocal.mk 200 none (some 1))
    [some (vsyncJ 1 "play"), some (vsyncJ 1 "pause")] rfl
    (by
      intro r hr
      rcases List.mem_cons.mp hr with h1 | h1
      · exact ⟨vsyncJ 1 "play", 1, SyncAction.play, none, none, by rw [h1], rfl⟩
      · rcases List.mem_cons.mp h1 with h2 | h2
        · exact ⟨vsyncJ 1 "pause", 1, SyncAction.pause, none, none, by rw [h2], rfl⟩
        · simp at h2)
  exact ⟨hx.1, hx.2.1, hx.2.2 200 (by decide) (ConnLocal.mk 300 (some 9) (some 1))
    (some (vsyncJ 1 "play")) (WsMessage.videoSync 1 SyncAction.play none none)⟩
